import Mathlib

set_option autoImplicit false

/-!
Shallow embedding of sagify's cloud facade:
 - `src/sagify/api/cloud.py` (namespace `Api`): helpers `_read_config`,
   `_read_hyperparams_config` and operations `upload_data`, `train`, `deploy`,
   `batch_transform`;
 - `src/sagify/commands/cloud.py` (namespace `Cli`): the click commands
   `upload-data`, `train`, `deploy`, `batch-transform` that wrap the API calls
   in a `try/except ValueError` with `sys.exit(-1)`.

The file system, the parsed JSON contents of files and the external SageMaker
client are modelled as explicit parameters.  Each operation returns its Python
result (an `Except` for a possibly raised exception) together with a trace of
observable effects (local file checks, client construction, client calls), so
that ordering claims such as "no remote call is made" can be stated.
-/

/-- A JSON value, the result of `json.load`. -/
inductive Json where
  | null : Json
  | bool (b : Bool) : Json
  | num (n : Int) : Json
  | str (s : String) : Json
  | arr (elems : List Json) : Json
  | obj (fields : List (String × Json)) : Json
deriving Repr

/-- The project configuration returned by `ConfigManager(path).get_config()`.
`sagify/config/config.py` is not under `src/`; the spec describes the record as
"a small record read from a project-local file containing \x7bimage name, AWS
profile, AWS region\x7d". -/
structure Config where
  image_name : String
  aws_profile : String
  aws_region : String
deriving Repr, DecidableEq

/-- The local file system, as observed by the Python code: `os.path.isfile`,
path existence for directories, the parsed JSON contents of a file
(`none` models contents that `json.load` rejects), and the configuration
record that `ConfigManager` would produce from a config file at a path. -/
structure FileSystem where
  isFile : String → Bool
  pathExists : String → Bool
  jsonContents : String → Option Json
  configAt : String → Config

/-- Python exceptions relevant to this code.  `json.JSONDecodeError` is a
subclass of `ValueError`, so the CLI's `except ValueError` catches it;
client-side (SDK) errors are not `ValueError`s. -/
inductive PyError where
  | valueError (msg : String) : PyError
  | jsonDecodeError (msg : String) : PyError
  | clientError (msg : String) : PyError
deriving Repr, DecidableEq

/-- Whether `except ValueError` catches this exception. -/
def PyError.isValueError : PyError → Bool
  | .valueError _ => true
  | .jsonDecodeError _ => true
  | .clientError _ => false

/-- One tag dictionary `{'Key': ..., 'Value': ...}` as passed to the client. -/
structure Tag where
  key : String
  value : String
deriving Repr, DecidableEq

/-- The keyword arguments of `sage_maker_client.train(...)`
(src/sagify/api/cloud.py lines 98-110). -/
structure TrainRequest where
  image_name : String
  input_s3_data_location : String
  train_instance_count : Nat
  train_instance_type : String
  train_volume_size : Int
  train_max_run : Int
  output_path : String
  hyperparameters : Option Json
  base_job_name : Option String
  job_name : Option String
  tags : Option (List Tag)
deriving Repr

/-- The keyword arguments of `sage_maker_client.deploy(...)`
(src/sagify/api/cloud.py lines 146-152). -/
structure DeployRequest where
  image_name : String
  s3_model_location : String
  train_instance_count : Int
  train_instance_type : String
  tags : Option (List Tag)
deriving Repr

/-- The keyword arguments of `sage_maker_client.batch_transform(...)`
(src/sagify/api/cloud.py lines 199-207). -/
structure BatchTransformRequest where
  image_name : String
  s3_model_location : String
  s3_input_location : String
  s3_output_location : String
  transform_instance_count : Int
  transform_instance_type : String
  tags : Option (List Tag)
deriving Repr

/-- Observable effects of one operation, in order:  local `os.path.isfile`
checks, local file reads, `SageMakerClient(...)` construction, and the four
client calls with their full argument lists. -/
inductive Effect where
  | isFileCheck (path : String) : Effect
  | fileRead (path : String) : Effect
  | createClient (aws_profile aws_region : String)
      (aws_role external_id : Option String) : Effect
  | uploadDataCall (input_dir s3_dir : String) : Effect
  | trainCall (req : TrainRequest) : Effect
  | deployCall (req : DeployRequest) : Effect
  | batchTransformCall (req : BatchTransformRequest) : Effect
deriving Repr

/-- Effects that involve the SageMaker client: its construction and every
call on it (the calls are the remote/network interactions). -/
def isClientEffect : Effect → Bool
  | .createClient _ _ _ _ => true
  | .uploadDataCall _ _ => true
  | .trainCall _ => true
  | .deployCall _ => true
  | .batchTransformCall _ => true
  | _ => false

/-- Local file-system effects: existence checks and reads. -/
def isFileEffect : Effect → Bool
  | .isFileCheck _ => true
  | .fileRead _ => true
  | _ => false

/-- The `train` calls recorded in a trace, with their requests. -/
def trainCallsOf (t : List Effect) : List TrainRequest :=
  t.filterMap fun e =>
    match e with
    | .trainCall req => some req
    | _ => none

/-- The `deploy` calls recorded in a trace, with their requests. -/
def deployCallsOf (t : List Effect) : List DeployRequest :=
  t.filterMap fun e =>
    match e with
    | .deployCall req => some req
    | _ => none

/-- The `batch_transform` calls recorded in a trace, with their requests. -/
def batchTransformCallsOf (t : List Effect) : List BatchTransformRequest :=
  t.filterMap fun e =>
    match e with
    | .batchTransformCall req => some req
    | _ => none

/-- The external SageMaker client's responses, one function per method.  The
client is an opaque dependency: each method either returns a value or raises.
`batchTransformResp` returns a `String` to model an arbitrary (discarded)
return value of the underlying call. -/
structure SageMakerBehavior where
  uploadDataResp : String → String → Except PyError String
  trainResp : TrainRequest → Except PyError String
  deployResp : DeployRequest → Except PyError String
  batchTransformResp : BatchTransformRequest → Except PyError String

/-- Whether a string starts with the character `/`. -/
def strHeadSlash (s : String) : Bool :=
  match s.data with
  | [] => false
  | c :: _ => c == '/'

/-- Whether a string ends with the character `/`. -/
def strLastSlash (s : String) : Bool :=
  match s.data.getLast? with
  | some c => c == '/'
  | none => false

/-- `os.path.join` for two components on a POSIX system. -/
def osPathJoin (a b : String) : String :=
  if strHeadSlash b then b
  else if a = "" ∨ strLastSlash a then a ++ b
  else a ++ "/" ++ b

/-- The path `os.path.join(input_dir, 'sagify', 'config.json')`. -/
def configFilePath (input_dir : String) : String :=
  osPathJoin (osPathJoin input_dir "sagify") "config.json"

namespace Api

/-- `_read_config` (src/sagify/api/cloud.py lines 11-16): raise `ValueError`
when the config file is not a file, otherwise load the configuration. -/
def _read_config (fs : FileSystem) (input_dir : String) :
    Except PyError Config × List Effect :=
  let config_file_path := configFilePath input_dir
  if fs.isFile config_file_path then
    (.ok (fs.configAt config_file_path),
     [.isFileCheck config_file_path, .fileRead config_file_path])
  else
    (.error (.valueError ("This is not a sagify directory: " ++ input_dir)),
     [.isFileCheck config_file_path])

/-- `_read_hyperparams_config` (src/sagify/api/cloud.py lines 19-26): raise
`ValueError` when the file does not exist, otherwise `json.load` it (raising
`json.JSONDecodeError` on invalid JSON). -/
def _read_hyperparams_config (fs : FileSystem) (hyperparams_file_path : String) :
    Except PyError Json × List Effect :=
  if fs.isFile hyperparams_file_path then
    match fs.jsonContents hyperparams_file_path with
    | some j =>
        (.ok j, [.isFileCheck hyperparams_file_path, .fileRead hyperparams_file_path])
    | none =>
        (.error (.jsonDecodeError ("Expecting value: " ++ hyperparams_file_path)),
         [.isFileCheck hyperparams_file_path, .fileRead hyperparams_file_path])
  else
    (.error (.valueError
        ("The given hyperparams file " ++ hyperparams_file_path ++ " doens't exist")),
     [.isFileCheck hyperparams_file_path])

/-- The line `hyperparams_dict = _read_hyperparams_config(hyperparams_file) if
hyperparams_file else None` (src/sagify/api/cloud.py line 93).  A Python string
is falsy exactly when it is empty, and `None` is falsy. -/
def hyperparamsDict (fs : FileSystem) (hyperparams_file : Option String) :
    Except PyError (Option Json) × List Effect :=
  match hyperparams_file with
  | none => (.ok none, [])
  | some p =>
      if p = "" then (.ok none, [])
      else
        match _read_hyperparams_config fs p with
        | (.ok j, t) => (.ok (some j), t)
        | (.error e, t) => (.error e, t)

/-- `upload_data` (src/sagify/api/cloud.py lines 29-42). -/
def upload_data (fs : FileSystem) (sm : SageMakerBehavior)
    (dir input_dir s3_dir : String) :
    Except PyError String × List Effect :=
  match _read_config fs dir with
  | (.error e, t) => (.error e, t)
  | (.ok config, t) =>
      (sm.uploadDataResp input_dir s3_dir,
       t ++ [.createClient config.aws_profile config.aws_region none none,
             .uploadDataCall input_dir s3_dir])

/-- `train` (src/sagify/api/cloud.py lines 45-110).  Note the hardcoded
`train_instance_count=1` at line 101. -/
def train (fs : FileSystem) (sm : SageMakerBehavior)
    (dir input_s3_dir output_s3_dir : String)
    (hyperparams_file : Option String)
    (ec2_type : String) (volume_size time_out : Int)
    (docker_tag : String)
    (aws_role external_id base_job_name job_name : Option String)
    (tags : Option (List Tag)) :
    Except PyError String × List Effect :=
  match _read_config fs dir with
  | (.error e, t) => (.error e, t)
  | (.ok config, t) =>
      match hyperparamsDict fs hyperparams_file with
      | (.error e, t2) => (.error e, t ++ t2)
      | (.ok hyperparams_dict, t2) =>
          let image_name := config.image_name ++ ":" ++ docker_tag
          let req : TrainRequest :=
            { image_name := image_name
              input_s3_data_location := input_s3_dir
              train_instance_count := 1
              train_instance_type := ec2_type
              train_volume_size := volume_size
              train_max_run := time_out
              output_path := output_s3_dir
              hyperparameters := hyperparams_dict
              base_job_name := base_job_name
              job_name := job_name
              tags := tags }
          (sm.trainResp req,
           t ++ t2 ++
             [.createClient config.aws_profile config.aws_region aws_role external_id,
              .trainCall req])

/-- `deploy` (src/sagify/api/cloud.py lines 113-152). -/
def deploy (fs : FileSystem) (sm : SageMakerBehavior)
    (dir s3_model_location : String) (num_instances : Int)
    (ec2_type docker_tag : String)
    (aws_role external_id : Option String)
    (tags : Option (List Tag)) :
    Except PyError String × List Effect :=
  match _read_config fs dir with
  | (.error e, t) => (.error e, t)
  | (.ok config, t) =>
      let image_name := config.image_name ++ ":" ++ docker_tag
      let req : DeployRequest :=
        { image_name := image_name
          s3_model_location := s3_model_location
          train_instance_count := num_instances
          train_instance_type := ec2_type
          tags := tags }
      (sm.deployResp req,
       t ++ [.createClient config.aws_profile config.aws_region aws_role external_id,
             .deployCall req])

/-- `batch_transform` (src/sagify/api/cloud.py lines 155-207).  The client
call's return value is discarded: the Python function has no `return`
statement, so it returns `None` on success. -/
def batch_transform (fs : FileSystem) (sm : SageMakerBehavior)
    (dir s3_model_location s3_input_location s3_output_location : String)
    (num_instances : Int) (ec2_type docker_tag : String)
    (aws_role external_id : Option String)
    (tags : Option (List Tag)) :
    Except PyError Unit × List Effect :=
  match _read_config fs dir with
  | (.error e, t) => (.error e, t)
  | (.ok config, t) =>
      let image_name := config.image_name ++ ":" ++ docker_tag
      let req : BatchTransformRequest :=
        { image_name := image_name
          s3_model_location := s3_model_location
          s3_input_location := s3_input_location
          s3_output_location := s3_output_location
          transform_instance_count := num_instances
          transform_instance_type := ec2_type
          tags := tags }
      let t := t ++ [.createClient config.aws_profile config.aws_region aws_role external_id,
                     .batchTransformCall req]
      match sm.batchTransformResp req with
      | .ok _ => (.ok (), t)
      | .error e => (.error e, t)

end Api

namespace Cli

/-- Outcome of running a command body (src/sagify/commands/cloud.py):
`exitZero` when the `try` block completes, `exitNegOne` for `sys.exit(-1)` in
the `except ValueError` handler, `uncaught` when a non-`ValueError` exception
propagates out of the command. -/
inductive Outcome where
  | exitZero : Outcome
  | exitNegOne : Outcome
  | uncaught (e : PyError) : Outcome
deriving Repr, DecidableEq

/-- Result of invoking a click command: `usageError` when click's option
parsing (including option callbacks) rejects the arguments before the command
body runs, `ran` when the body ran with the given outcome. -/
inductive Result where
  | usageError : Result
  | ran (outcome : Outcome) : Result
deriving Repr, DecidableEq

/-- The `try ... except ValueError as e: sys.exit(-1)` wrapper shared by all
four commands. -/
def catchValueError {α : Type} (r : Except PyError α) : Outcome :=
  match r with
  | .ok _ => .exitZero
  | .error e => if e.isValueError then .exitNegOne else .uncaught e

/-- Split a character list at every occurrence of `sep` (the list analogue of
splitting a string on a separator character). -/
def splitOnChar (sep : Char) : List Char → List (List Char)
  | [] => [[]]
  | c :: cs =>
      let rest := splitOnChar sep cs
      if c == sep then [] :: rest
      else
        match rest with
        | r :: rs => (c :: r) :: rs
        | [] => [[c]]

/-- Modelled from the spec: `validate_tags` lives in
`sagify/commands/custom_validators/validators.py`, which is not under `src/`.
The spec says tags come from a CLI argument of the form
`"tag1=value1;tag2=value2"`, that the "tag string must parse into well-formed
pairs", and that "a malformed tag string is rejected before any network call".
One `key=value` part: exactly one `=` separating key and value. -/
def parseTagPair (part : List Char) : Option Tag :=
  match splitOnChar '=' part with
  | [k, v] => some { key := String.mk k, value := String.mk v }
  | _ => none

/-- Modelled from the spec: the click callback validating the `--aws-tags`
option.  `none` models `click.BadParameter` (the command is rejected during
argument parsing); `some tags` is the parsed value handed to the command body,
with an absent option passed through as `None`. -/
def validate_tags (s : Option String) : Option (Option (List Tag)) :=
  match s with
  | none => some none
  | some str =>
      match (splitOnChar ';' str.data).mapM parseTagPair with
      | some tags => some (some tags)
      | none => none

/-- The `upload-data` command (src/sagify/commands/cloud.py lines 24-50). -/
def upload_data (fs : FileSystem) (sm : SageMakerBehavior)
    (dir input_dir s3_dir : String) : Result × List Effect :=
  let (r, t) := Api.upload_data fs sm dir input_dir s3_dir
  (.ran (catchValueError r), t)

/-- The `train` command (src/sagify/commands/cloud.py lines 53-162):
click validates `--aws-tags` through `validate_tags` before the body runs;
the body calls `api_cloud.train` with `docker_tag` taken from the group
context object. -/
def train (fs : FileSystem) (sm : SageMakerBehavior) (docker_tag : String)
    (dir input_s3_dir output_s3_dir : String)
    (hyperparams_file : Option String)
    (ec2_type : String) (volume_size time_out : Int)
    (aws_tags : Option String)
    (iam_role_arn external_id base_job_name job_name : Option String) :
    Result × List Effect :=
  match validate_tags aws_tags with
  | none => (.usageError, [])
  | some tags =>
      let (r, t) := Api.train fs sm dir input_s3_dir output_s3_dir
        hyperparams_file ec2_type volume_size time_out docker_tag
        iam_role_arn external_id base_job_name job_name tags
      (.ran (catchValueError r), t)

/-- The `deploy` command (src/sagify/commands/cloud.py lines 165-219). -/
def deploy (fs : FileSystem) (sm : SageMakerBehavior) (docker_tag : String)
    (dir s3_model_location : String) (num_instances : Int) (ec2_type : String)
    (aws_tags : Option String)
    (iam_role_arn external_id : Option String) :
    Result × List Effect :=
  match validate_tags aws_tags with
  | none => (.usageError, [])
  | some tags =>
      let (r, t) := Api.deploy fs sm dir s3_model_location num_instances
        ec2_type docker_tag iam_role_arn external_id tags
      (.ran (catchValueError r), t)

/-- The `batch-transform` command (src/sagify/commands/cloud.py lines
222-300). -/
def batch_transform (fs : FileSystem) (sm : SageMakerBehavior)
    (docker_tag : String)
    (dir s3_model_location s3_input_location s3_output_location : String)
    (num_instances : Int) (ec2_type : String)
    (aws_tags : Option String)
    (iam_role_arn external_id : Option String) :
    Result × List Effect :=
  match validate_tags aws_tags with
  | none => (.usageError, [])
  | some tags =>
      let (r, t) := Api.batch_transform fs sm dir s3_model_location
        s3_input_location s3_output_location num_instances ec2_type docker_tag
        iam_role_arn external_id tags
      (.ran (catchValueError r), t)

end Cli

/-- Modelled from the spec: `SageMakerClient.upload_data` (in
`sagify/sagemaker/sagemaker.py`) is not under `src/`.  The spec's contract for
upload is: "upload(local_path, remote_target) → remote_path; fails if
local_path absent or remote write rejected by the platform".  `remoteRejected`
and `remotePath` model the platform's side. -/
def specClientUpload (fs : FileSystem) (remoteRejected : Bool)
    (remotePath : String → String → String)
    (input_dir s3_dir : String) : Except PyError String :=
  if fs.pathExists input_dir then
    if remoteRejected then .error (.clientError "remote write rejected")
    else .ok (remotePath input_dir s3_dir)
  else .error (.clientError ("local path absent: " ++ input_dir))

/-- The train request that the spec's contract for the train operation
describes: "train(image_ref, input_location, output_location, instance_type,
instance_count, volume_size, timeout, hyperparameters?, role?, external_id?,
job_name?, tags?)" with "every provided parameter ... forwarded unmodified
into the request", the instance count included.  Written from the spec's
words, to be compared with the request `Api.train` actually builds. -/
def specTrainRequest (image_ref input_location output_location : String)
    (instance_type : String) (instance_count : Nat)
    (volume_size timeout : Int) (hyperparameters : Option Json)
    (base_job_name job_name : Option String) (tags : Option (List Tag)) :
    TrainRequest :=
  { image_name := image_ref
    input_s3_data_location := input_location
    train_instance_count := instance_count
    train_instance_type := instance_type
    train_volume_size := volume_size
    train_max_run := timeout
    output_path := output_location
    hyperparameters := hyperparameters
    base_job_name := base_job_name
    job_name := job_name
    tags := tags }


/-! ## Fixtures for concrete instantiations -/

/-- A sample configuration. -/
def sampleConfig : Config :=
  { image_name := "my-img", aws_profile := "dev", aws_region := "us-east-1" }

/-- A file system where every path exists and holds valid (empty-object) JSON. -/
def fsAll : FileSystem :=
  { isFile := fun _ => true
    pathExists := fun _ => true
    jsonContents := fun _ => some (Json.obj [])
    configAt := fun _ => sampleConfig }

/-- A file system with no files at all. -/
def fsNone : FileSystem :=
  { isFile := fun _ => false
    pathExists := fun _ => false
    jsonContents := fun _ => none
    configAt := fun _ => sampleConfig }

/-- A client whose calls all succeed with fixed identifiers. -/
def smOk : SageMakerBehavior :=
  { uploadDataResp := fun _ s3_dir => .ok s3_dir
    trainResp := fun _ => .ok "s3://bucket/output/model.tar.gz"
    deployResp := fun _ => .ok "my-endpoint"
    batchTransformResp := fun _ => .ok "job-started" }

/-- A file system holding only the project config file of `/proj`; every
other path (in particular any hyperparams file) is absent. -/
def fsCfgOnly : FileSystem :=
  { isFile := fun p => p == "/proj/sagify/config.json"
    pathExists := fun p => p == "/proj/sagify/config.json"
    jsonContents := fun _ => none
    configAt := fun _ => sampleConfig }

/-- A client whose calls all raise a (non-ValueError) SDK error. -/
def smBoom : SageMakerBehavior :=
  { uploadDataResp := fun _ _ => .error (.clientError "boom")
    trainResp := fun _ => .error (.clientError "boom")
    deployResp := fun _ => .error (.clientError "boom")
    batchTransformResp := fun _ => .error (.clientError "boom") }

/-! ## Helper lemmas on traces -/

/-- The trace of `_read_hyperparams_config` holds only local file effects. -/
theorem read_hyperparams_trace (fs : FileSystem) (p : String) :
    (Api._read_hyperparams_config fs p).2 = [.isFileCheck p] ∨
    (Api._read_hyperparams_config fs p).2 = [.isFileCheck p, .fileRead p] := by
  unfold Api._read_hyperparams_config
  split
  · cases h : fs.jsonContents p <;> simp [h]
  · simp

/-- For a truthy hyperparams path, `hyperparamsDict` has the same trace as
`_read_hyperparams_config`. -/
theorem hyperparamsDict_trace_some (fs : FileSystem) (p : String) (h : ¬ p = "") :
    (Api.hyperparamsDict fs (some p)).2 = (Api._read_hyperparams_config fs p).2 := by
  unfold Api.hyperparamsDict
  rcases hr : Api._read_hyperparams_config fs p with ⟨r, t⟩
  cases r <;> simp [h, hr]

/-- Every effect in the trace of `hyperparamsDict` is a local file effect. -/
theorem hyperparamsDict_trace_fileEffects (fs : FileSystem) (o : Option String) :
    ∀ e ∈ (Api.hyperparamsDict fs o).2, isFileEffect e = true := by
  intro e he
  cases o with
  | none => simp [Api.hyperparamsDict] at he
  | some p =>
      by_cases hp : p = ""
      · simp [Api.hyperparamsDict, hp] at he
      · rw [hyperparamsDict_trace_some fs p hp] at he
        rcases read_hyperparams_trace fs p with h | h <;> rw [h] at he
        · rw [List.mem_singleton] at he
          subst he; rfl
        · rcases List.mem_cons.mp he with he1 | he2
          · subst he1; rfl
          · rw [List.mem_singleton] at he2
            subst he2; rfl

/-- No `train` call is recorded in the trace of `hyperparamsDict`. -/
theorem trainCallsOf_hyperparamsDict (fs : FileSystem) (o : Option String) :
    trainCallsOf (Api.hyperparamsDict fs o).2 = [] := by
  rw [trainCallsOf, List.filterMap_eq_nil_iff]
  intro e he
  have := hyperparamsDict_trace_fileEffects fs o e he
  cases e <;> simp_all [isFileEffect]

/-- No client effect is recorded in the trace of `hyperparamsDict`. -/
theorem hyperparamsDict_no_client (fs : FileSystem) (o : Option String) :
    (Api.hyperparamsDict fs o).2.filter isClientEffect = [] := by
  rw [List.filter_eq_nil_iff]
  intro e he
  have := hyperparamsDict_trace_fileEffects fs o e he
  cases e <;> simp_all [isFileEffect, isClientEffect]

/-- `trainCallsOf` distributes over append. -/
theorem trainCallsOf_append (t1 t2 : List Effect) :
    trainCallsOf (t1 ++ t2) = trainCallsOf t1 ++ trainCallsOf t2 := by
  simp [trainCallsOf]

/-! ## Claims -/

/-- C1: For every operation (upload_data, train, deploy, batch_transform) and
every directory `dir`, if `<dir>/sagify/config.json` is not an existing file,
the operation raises the local `ValueError` "This is not a sagify directory"
with the only effect being the local file check: no SageMaker client is
constructed and no remote call is made. -/
theorem C1_missing_config_no_remote_call
    (fs : FileSystem) (sm : SageMakerBehavior) (dir : String)
    (input_dir s3_dir input_s3_dir output_s3_dir : String)
    (hyperparams_file : Option String) (ec2_type : String)
    (volume_size time_out : Int) (docker_tag : String)
    (aws_role external_id base_job_name job_name : Option String)
    (tags : Option (List Tag))
    (s3_model_location s3_input_location s3_output_location : String)
    (num_instances : Int)
    (h : fs.isFile (configFilePath dir) = false) :
    Api.upload_data fs sm dir input_dir s3_dir =
      (.error (.valueError ("This is not a sagify directory: " ++ dir)),
       [.isFileCheck (configFilePath dir)]) ∧
    Api.train fs sm dir input_s3_dir output_s3_dir hyperparams_file ec2_type
        volume_size time_out docker_tag aws_role external_id base_job_name
        job_name tags =
      (.error (.valueError ("This is not a sagify directory: " ++ dir)),
       [.isFileCheck (configFilePath dir)]) ∧
    Api.deploy fs sm dir s3_model_location num_instances ec2_type docker_tag
        aws_role external_id tags =
      (.error (.valueError ("This is not a sagify directory: " ++ dir)),
       [.isFileCheck (configFilePath dir)]) ∧
    Api.batch_transform fs sm dir s3_model_location s3_input_location
        s3_output_location num_instances ec2_type docker_tag aws_role
        external_id tags =
      (.error (.valueError ("This is not a sagify directory: " ++ dir)),
       [.isFileCheck (configFilePath dir)]) := by
  refine ⟨?_, ?_, ?_, ?_⟩ <;>
    simp [Api.upload_data, Api.train, Api.deploy, Api.batch_transform,
      Api._read_config, h]

/-- C1 witness: concrete instantiation on an empty file system. -/
theorem C1_missing_config_no_remote_call_witness :
    Api.upload_data fsNone smOk "/proj" "data" "s3://bucket/in" =
      (.error (.valueError "This is not a sagify directory: /proj"),
       [.isFileCheck "/proj/sagify/config.json"]) ∧
    Api.train fsNone smOk "/proj" "s3://in" "s3://out" none "ml.m4.xlarge"
        30 86400 "latest" none none none none none =
      (.error (.valueError "This is not a sagify directory: /proj"),
       [.isFileCheck "/proj/sagify/config.json"]) ∧
    Api.deploy fsNone smOk "/proj" "s3://model" 2 "ml.m4.xlarge" "latest"
        none none none =
      (.error (.valueError "This is not a sagify directory: /proj"),
       [.isFileCheck "/proj/sagify/config.json"]) ∧
    Api.batch_transform fsNone smOk "/proj" "s3://model" "s3://in" "s3://out"
        2 "ml.m4.xlarge" "latest" none none none =
      (.error (.valueError "This is not a sagify directory: /proj"),
       [.isFileCheck "/proj/sagify/config.json"]) := by
  exact C1_missing_config_no_remote_call fsNone smOk "/proj" "data"
    "s3://bucket/in" "s3://in" "s3://out" none "ml.m4.xlarge" 30 86400
    "latest" none none none none none "s3://model" "s3://in" "s3://out" 2 rfl

/-- Whether a Python result is a raised exception of class `ValueError`. -/
def raisesValueError {α : Type} (r : Except PyError α) : Bool :=
  match r with
  | .error e => e.isValueError
  | .ok _ => false

/-- C2 counterexample: the train operation has no instance-count parameter;
at a concrete call the client request carries `train_instance_count = 1` and
equals the spec-contract request only with instance count 1, never a
caller-provided count such as 2. -/
theorem C2_instance_count_not_forwarded :
    trainCallsOf (Api.train fsAll smOk "/proj" "s3://in" "s3://out" none
        "ml.m4.xlarge" 30 86400 "latest" none none none none none).2 =
      [specTrainRequest "my-img:latest" "s3://in" "s3://out" "ml.m4.xlarge" 1
         30 86400 none none none none] ∧
    (specTrainRequest "my-img:latest" "s3://in" "s3://out" "ml.m4.xlarge" 2
        30 86400 none none none none).train_instance_count = 2 ∧
    (trainCallsOf (Api.train fsAll smOk "/proj" "s3://in" "s3://out" none
        "ml.m4.xlarge" 30 86400 "latest" none none none none none).2).map
        TrainRequest.train_instance_count = [1] :=
  ⟨rfl, rfl, rfl⟩

/-- C2 (amended): every provided train parameter (input location, output
location, instance type, volume size, timeout, the hyperparameters read from
the given file, base job name, job name, tags) is forwarded unmodified into
the client request, the image name is built from the config, and the instance
count — which the operation does not accept — is always `1`. -/
theorem C2_train_forwarding
    (fs : FileSystem) (sm : SageMakerBehavior)
    (dir input_s3_dir output_s3_dir : String)
    (hyperparams_file : Option String) (ec2_type : String)
    (volume_size time_out : Int) (docker_tag : String)
    (aws_role external_id base_job_name job_name : Option String)
    (tags : Option (List Tag)) (hpd : Option Json)
    (hcfg : fs.isFile (configFilePath dir) = true)
    (hhp : (Api.hyperparamsDict fs hyperparams_file).1 = .ok hpd) :
    trainCallsOf (Api.train fs sm dir input_s3_dir output_s3_dir
        hyperparams_file ec2_type volume_size time_out docker_tag aws_role
        external_id base_job_name job_name tags).2 =
      [{ image_name :=
            (fs.configAt (configFilePath dir)).image_name ++ ":" ++ docker_tag
         input_s3_data_location := input_s3_dir
         train_instance_count := 1
         train_instance_type := ec2_type
         train_volume_size := volume_size
         train_max_run := time_out
         output_path := output_s3_dir
         hyperparameters := hpd
         base_job_name := base_job_name
         job_name := job_name
         tags := tags }] := by
  have h2 := trainCallsOf_hyperparamsDict fs hyperparams_file
  rcases hd : Api.hyperparamsDict fs hyperparams_file with ⟨r, t2⟩
  rw [hd] at hhp h2
  simp only at hhp h2
  subst hhp
  simp only [Api.train, Api._read_config, hcfg, if_true, hd]
  rw [List.append_assoc, trainCallsOf_append, trainCallsOf_append, h2]
  simp [trainCallsOf]

/-- C2 witness: concrete instantiation with an existing config and a valid
hyperparams file. -/
theorem C2_train_forwarding_witness :
    fsAll.isFile (configFilePath "/proj") = true ∧
    (Api.hyperparamsDict fsAll (some "/hp.json")).1 = .ok (some (Json.obj [])) ∧
    trainCallsOf (Api.train fsAll smOk "/proj" "s3://in" "s3://out"
        (some "/hp.json") "ml.m4.xlarge" 30 86400 "latest" none none none
        (some "job-1") none).2 =
      [{ image_name := "my-img:latest"
         input_s3_data_location := "s3://in"
         train_instance_count := 1
         train_instance_type := "ml.m4.xlarge"
         train_volume_size := 30
         train_max_run := 86400
         output_path := "s3://out"
         hyperparameters := some (Json.obj [])
         base_job_name := none
         job_name := some "job-1"
         tags := none }] :=
  ⟨rfl, rfl,
    C2_train_forwarding fsAll smOk "/proj" "s3://in" "s3://out"
      (some "/hp.json") "ml.m4.xlarge" 30 86400 "latest" none none none
      (some "job-1") none (some (Json.obj [])) rfl rfl⟩

/-- C3: if train is given a truthy hyperparams path that is not an existing
file or whose contents are not valid JSON, it raises a ValueError-class
exception and no client effect occurs: no client is constructed and the
client's train method is never called. -/
theorem C3_bad_hyperparams_local_error
    (fs : FileSystem) (sm : SageMakerBehavior)
    (dir input_s3_dir output_s3_dir p ec2_type : String)
    (volume_size time_out : Int) (docker_tag : String)
    (aws_role external_id base_job_name job_name : Option String)
    (tags : Option (List Tag))
    (hp : ¬ p = "")
    (hbad : fs.isFile p = false ∨ fs.jsonContents p = none) :
    raisesValueError (Api.train fs sm dir input_s3_dir output_s3_dir (some p)
        ec2_type volume_size time_out docker_tag aws_role external_id
        base_job_name job_name tags).1 = true ∧
    (Api.train fs sm dir input_s3_dir output_s3_dir (some p) ec2_type
        volume_size time_out docker_tag aws_role external_id base_job_name
        job_name tags).2.filter isClientEffect = [] := by
  by_cases hcfg : fs.isFile (configFilePath dir) = true
  · rcases hbad with h1 | h1
    · constructor <;>
        simp [Api.train, Api._read_config, hcfg, Api.hyperparamsDict, hp,
          Api._read_hyperparams_config, h1, raisesValueError,
          PyError.isValueError, isClientEffect]
    · by_cases hf : fs.isFile p = true <;> constructor <;>
        simp_all [Api.train, Api._read_config, hcfg, Api.hyperparamsDict, hp,
          Api._read_hyperparams_config, raisesValueError,
          PyError.isValueError, isClientEffect]
  · rw [Bool.not_eq_true] at hcfg
    constructor <;>
      simp [Api.train, Api._read_config, hcfg, raisesValueError,
        PyError.isValueError, isClientEffect]

/-- C3 witness: concrete instantiation where the hyperparams file is absent. -/
theorem C3_bad_hyperparams_local_error_witness :
    ¬ "/hp.json" = "" ∧
    (fsCfgOnly.isFile "/hp.json" = false ∨
      fsCfgOnly.jsonContents "/hp.json" = none) ∧
    (raisesValueError (Api.train fsCfgOnly smOk "/proj" "s3://in" "s3://out"
        (some "/hp.json") "ml.m4.xlarge" 30 86400 "latest" none none none
        none none).1 = true ∧
     (Api.train fsCfgOnly smOk "/proj" "s3://in" "s3://out" (some "/hp.json")
        "ml.m4.xlarge" 30 86400 "latest" none none none none
        none).2.filter isClientEffect = []) :=
  ⟨by decide, Or.inl (by decide),
    C3_bad_hyperparams_local_error fsCfgOnly smOk "/proj" "s3://in" "s3://out"
      "/hp.json" "ml.m4.xlarge" 30 86400 "latest" none none none none none
      (by decide) (Or.inl (by decide))⟩

/-! ## CLI bridging lemmas -/

/-- The `upload-data` command body wraps `Api.upload_data` in the
ValueError handler. -/
theorem cli_upload_catch (fs : FileSystem) (sm : SageMakerBehavior)
    (dir input_dir s3_dir : String) :
    (Cli.upload_data fs sm dir input_dir s3_dir).1 =
      .ran (Cli.catchValueError (Api.upload_data fs sm dir input_dir s3_dir).1) := by
  unfold Cli.upload_data
  rcases Api.upload_data fs sm dir input_dir s3_dir with ⟨r, t⟩
  rfl

/-- With an accepted tag string, the `train` command body wraps `Api.train`
in the ValueError handler. -/
theorem cli_train_catch (fs : FileSystem) (sm : SageMakerBehavior)
    (docker_tag dir input_s3_dir output_s3_dir : String)
    (hyperparams_file : Option String) (ec2_type : String)
    (volume_size time_out : Int) (aws_tags : Option String)
    (iam_role_arn external_id base_job_name job_name : Option String)
    (tags : Option (List Tag))
    (htags : Cli.validate_tags aws_tags = some tags) :
    (Cli.train fs sm docker_tag dir input_s3_dir output_s3_dir
        hyperparams_file ec2_type volume_size time_out aws_tags iam_role_arn
        external_id base_job_name job_name).1 =
      .ran (Cli.catchValueError (Api.train fs sm dir input_s3_dir
        output_s3_dir hyperparams_file ec2_type volume_size time_out
        docker_tag iam_role_arn external_id base_job_name job_name tags).1) := by
  unfold Cli.train
  rw [htags]

/-- With an accepted tag string, the `deploy` command body wraps `Api.deploy`
in the ValueError handler. -/
theorem cli_deploy_catch (fs : FileSystem) (sm : SageMakerBehavior)
    (docker_tag dir s3_model_location : String) (num_instances : Int)
    (ec2_type : String) (aws_tags : Option String)
    (iam_role_arn external_id : Option String)
    (tags : Option (List Tag))
    (htags : Cli.validate_tags aws_tags = some tags) :
    (Cli.deploy fs sm docker_tag dir s3_model_location num_instances ec2_type
        aws_tags iam_role_arn external_id).1 =
      .ran (Cli.catchValueError (Api.deploy fs sm dir s3_model_location
        num_instances ec2_type docker_tag iam_role_arn external_id tags).1) := by
  unfold Cli.deploy
  rw [htags]

/-- With an accepted tag string, the `batch-transform` command body wraps
`Api.batch_transform` in the ValueError handler. -/
theorem cli_batch_transform_catch (fs : FileSystem) (sm : SageMakerBehavior)
    (docker_tag dir s3_model_location s3_input_location s3_output_location :
      String)
    (num_instances : Int) (ec2_type : String) (aws_tags : Option String)
    (iam_role_arn external_id : Option String)
    (tags : Option (List Tag))
    (htags : Cli.validate_tags aws_tags = some tags) :
    (Cli.batch_transform fs sm docker_tag dir s3_model_location
        s3_input_location s3_output_location num_instances ec2_type aws_tags
        iam_role_arn external_id).1 =
      .ran (Cli.catchValueError (Api.batch_transform fs sm dir
        s3_model_location s3_input_location s3_output_location num_instances
        ec2_type docker_tag iam_role_arn external_id tags).1) := by
  unfold Cli.batch_transform
  rw [htags]

/-- The exit behaviour of one command body relative to its API result:
a normal return exits 0, a raised `ValueError` exits -1, and any other
exception escapes the handler uncaught. -/
def ExitBehavior {α : Type} (cli : Cli.Result) (api : Except PyError α) :
    Prop :=
  (∀ v, api = .ok v → cli = .ran .exitZero) ∧
  (∀ e, api = .error e → e.isValueError = true → cli = .ran .exitNegOne) ∧
  (∀ e, api = .error e → e.isValueError = false → cli = .ran (.uncaught e))

/-- The ValueError handler realises `ExitBehavior`. -/
theorem exitBehavior_catch {α : Type} (r : Except PyError α) :
    ExitBehavior (.ran (Cli.catchValueError r)) r := by
  refine ⟨?_, ?_, ?_⟩
  · intro v hv
    rw [hv]
    rfl
  · intro e he hve
    rw [he]
    simp [Cli.catchValueError, hve]
  · intro e he hve
    rw [he]
    simp [Cli.catchValueError, hve]

/-- C4 counterexample: when the client raises a non-ValueError SDK exception,
the `upload-data` command neither exits 0 nor exits -1: the exception escapes
the `except ValueError` handler uncaught. -/
theorem C4_uncaught_client_error :
    (Cli.upload_data fsAll smBoom "/proj" "data" "s3://in").1 =
      .ran (.uncaught (.clientError "boom")) ∧
    Cli.Result.ran (Cli.Outcome.uncaught (.clientError "boom")) ≠
      .ran .exitZero ∧
    Cli.Result.ran (Cli.Outcome.uncaught (.clientError "boom")) ≠
      .ran .exitNegOne :=
  ⟨rfl, by decide, by decide⟩

/-- C4 (amended): for each of the four CLI commands (the tag-taking ones under
an accepted tag string), a `ValueError` raised by the underlying API call
makes the command exit with code -1 and a normal API return makes it exit
with code 0, while a non-ValueError exception propagates uncaught (the
command exits neither 0 nor -1 through the handler). -/
theorem C4_exit_codes
    (fs : FileSystem) (sm : SageMakerBehavior) (docker_tag : String)
    (dir input_dir s3_dir input_s3_dir output_s3_dir : String)
    (hyperparams_file : Option String) (ec2_type : String)
    (volume_size time_out : Int) (aws_tags : Option String)
    (iam_role_arn external_id base_job_name job_name : Option String)
    (tags : Option (List Tag))
    (s3_model_location s3_input_location s3_output_location : String)
    (num_instances : Int)
    (htags : Cli.validate_tags aws_tags = some tags) :
    ExitBehavior (Cli.upload_data fs sm dir input_dir s3_dir).1
      (Api.upload_data fs sm dir input_dir s3_dir).1 ∧
    ExitBehavior (Cli.train fs sm docker_tag dir input_s3_dir output_s3_dir
        hyperparams_file ec2_type volume_size time_out aws_tags iam_role_arn
        external_id base_job_name job_name).1
      (Api.train fs sm dir input_s3_dir output_s3_dir hyperparams_file
        ec2_type volume_size time_out docker_tag iam_role_arn external_id
        base_job_name job_name tags).1 ∧
    ExitBehavior (Cli.deploy fs sm docker_tag dir s3_model_location
        num_instances ec2_type aws_tags iam_role_arn external_id).1
      (Api.deploy fs sm dir s3_model_location num_instances ec2_type
        docker_tag iam_role_arn external_id tags).1 ∧
    ExitBehavior (Cli.batch_transform fs sm docker_tag dir s3_model_location
        s3_input_location s3_output_location num_instances ec2_type aws_tags
        iam_role_arn external_id).1
      (Api.batch_transform fs sm dir s3_model_location s3_input_location
        s3_output_location num_instances ec2_type docker_tag iam_role_arn
        external_id tags).1 := by
  refine ⟨?_, ?_, ?_, ?_⟩
  · rw [cli_upload_catch]
    exact exitBehavior_catch _
  · rw [cli_train_catch fs sm docker_tag dir input_s3_dir output_s3_dir
      hyperparams_file ec2_type volume_size time_out aws_tags iam_role_arn
      external_id base_job_name job_name tags htags]
    exact exitBehavior_catch _
  · rw [cli_deploy_catch fs sm docker_tag dir s3_model_location num_instances
      ec2_type aws_tags iam_role_arn external_id tags htags]
    exact exitBehavior_catch _
  · rw [cli_batch_transform_catch fs sm docker_tag dir s3_model_location
      s3_input_location s3_output_location num_instances ec2_type aws_tags
      iam_role_arn external_id tags htags]
    exact exitBehavior_catch _

/-- C4 witness: on a missing config directory the `upload-data` command exits
-1, by the first command's ValueError case. -/
theorem C4_exit_codes_witness :
    (Cli.upload_data fsNone smOk "/proj" "data" "s3://in").1 =
      .ran .exitNegOne :=
  (C4_exit_codes fsNone smOk "latest" "/proj" "data" "s3://in" "s3://in"
      "s3://out" none "ml.m4.xlarge" 30 86400 none none none none none none
      "s3://model" "s3://in" "s3://out" 2 rfl).1.2.1
    (.valueError ("This is not a sagify directory: " ++ "/proj")) rfl rfl

/-- C5: with the config file present (and, for train, readable
hyperparameters), each facade operation returns exactly the client's
response: the uploaded S3 path, the trained-model location and the endpoint
name are passed through unchanged (in particular every successful client
value is returned verbatim). -/
theorem C5_client_results_unchanged
    (fs : FileSystem) (sm : SageMakerBehavior)
    (dir input_dir s3_dir input_s3_dir output_s3_dir : String)
    (hyperparams_file : Option String) (ec2_type : String)
    (volume_size time_out : Int) (docker_tag : String)
    (aws_role external_id base_job_name job_name : Option String)
    (tags : Option (List Tag)) (hpd : Option Json)
    (s3_model_location : String) (num_instances : Int)
    (hcfg : fs.isFile (configFilePath dir) = true)
    (hhp : (Api.hyperparamsDict fs hyperparams_file).1 = .ok hpd) :
    (Api.upload_data fs sm dir input_dir s3_dir).1 =
      sm.uploadDataResp input_dir s3_dir ∧
    (Api.train fs sm dir input_s3_dir output_s3_dir hyperparams_file ec2_type
        volume_size time_out docker_tag aws_role external_id base_job_name
        job_name tags).1 =
      sm.trainResp
        { image_name :=
            (fs.configAt (configFilePath dir)).image_name ++ ":" ++ docker_tag
          input_s3_data_location := input_s3_dir
          train_instance_count := 1
          train_instance_type := ec2_type
          train_volume_size := volume_size
          train_max_run := time_out
          output_path := output_s3_dir
          hyperparameters := hpd
          base_job_name := base_job_name
          job_name := job_name
          tags := tags } ∧
    (Api.deploy fs sm dir s3_model_location num_instances ec2_type docker_tag
        aws_role external_id tags).1 =
      sm.deployResp
        { image_name :=
            (fs.configAt (configFilePath dir)).image_name ++ ":" ++ docker_tag
          s3_model_location := s3_model_location
          train_instance_count := num_instances
          train_instance_type := ec2_type
          tags := tags } := by
  refine ⟨?_, ?_, ?_⟩
  · simp [Api.upload_data, Api._read_config, hcfg]
  · rcases hd : Api.hyperparamsDict fs hyperparams_file with ⟨r, t2⟩
    rw [hd] at hhp
    simp only at hhp
    subst hhp
    simp [Api.train, Api._read_config, hcfg, hd]
  · simp [Api.deploy, Api._read_config, hcfg]

/-- C5 witness: concrete instantiation; each operation returns the client's
identifier verbatim. -/
theorem C5_client_results_unchanged_witness :
    (Api.upload_data fsAll smOk "/proj" "data" "s3://in").1 =
      .ok "s3://in" ∧
    (Api.train fsAll smOk "/proj" "s3://in" "s3://out" none "ml.m4.xlarge" 30
        86400 "latest" none none none none none).1 =
      .ok "s3://bucket/output/model.tar.gz" ∧
    (Api.deploy fsAll smOk "/proj" "s3://model" 2 "ml.m4.xlarge" "latest"
        none none none).1 =
      .ok "my-endpoint" :=
  C5_client_results_unchanged fsAll smOk "/proj" "data" "s3://in" "s3://in"
    "s3://out" none "ml.m4.xlarge" 30 86400 "latest" none none none none
    none none "s3://model" 2 rfl rfl

/-- C6: a tag string that does not parse into `key=value;key=value` pairs is
rejected by the `validate_tags` callback during argument parsing: for each
tag-taking command (train, deploy, batch-transform) the command body never
runs and the effect trace is empty, so no network call is made. -/
theorem C6_malformed_tags_rejected
    (fs : FileSystem) (sm : SageMakerBehavior) (docker_tag : String)
    (dir input_s3_dir output_s3_dir : String)
    (hyperparams_file : Option String) (ec2_type : String)
    (volume_size time_out : Int) (raw : Option String)
    (iam_role_arn external_id base_job_name job_name : Option String)
    (s3_model_location s3_input_location s3_output_location : String)
    (num_instances : Int)
    (hbad : Cli.validate_tags raw = none) :
    Cli.train fs sm docker_tag dir input_s3_dir output_s3_dir
        hyperparams_file ec2_type volume_size time_out raw iam_role_arn
        external_id base_job_name job_name = (.usageError, []) ∧
    Cli.deploy fs sm docker_tag dir s3_model_location num_instances ec2_type
        raw iam_role_arn external_id = (.usageError, []) ∧
    Cli.batch_transform fs sm docker_tag dir s3_model_location
        s3_input_location s3_output_location num_instances ec2_type raw
        iam_role_arn external_id = (.usageError, []) := by
  refine ⟨?_, ?_, ?_⟩ <;>
    simp [Cli.train, Cli.deploy, Cli.batch_transform, hbad]

/-- C6 witness: the malformed tag string "env" (no `=`) is rejected before
any command body runs. -/
theorem C6_malformed_tags_rejected_witness :
    Cli.validate_tags (some "env") = none ∧
    Cli.train fsAll smOk "latest" "/proj" "s3://in" "s3://out" none
        "ml.m4.xlarge" 30 86400 (some "env") none none none none =
      (.usageError, []) ∧
    Cli.deploy fsAll smOk "latest" "/proj" "s3://model" 2 "ml.m4.xlarge"
        (some "env") none none = (.usageError, []) ∧
    Cli.batch_transform fsAll smOk "latest" "/proj" "s3://model" "s3://in"
        "s3://out" 2 "ml.m4.xlarge" (some "env") none none =
      (.usageError, []) :=
  ⟨rfl,
    C6_malformed_tags_rejected fsAll smOk "latest" "/proj" "s3://in"
      "s3://out" none "ml.m4.xlarge" 30 86400 (some "env") none none none
      none "s3://model" "s3://in" "s3://out" 2 rfl⟩

/-- A client whose upload method follows the spec-modelled contract over
`fsAll`, with the platform accepting the write and returning the target
S3 location. -/
def smSpecUpload : SageMakerBehavior :=
  { smOk with
    uploadDataResp := specClientUpload fsAll false fun _ s3_dir => s3_dir }

/-- C7: for a client whose upload method follows the spec-modelled contract,
`upload_data` fails when the local input path is absent, fails when the
platform rejects the remote write, and otherwise returns the remote path. -/
theorem C7_upload_data_contract
    (fs : FileSystem) (sm : SageMakerBehavior)
    (remoteRejected : Bool) (remotePath : String → String → String)
    (dir input_dir s3_dir : String)
    (hcfg : fs.isFile (configFilePath dir) = true)
    (hsm : sm.uploadDataResp = specClientUpload fs remoteRejected remotePath) :
    (fs.pathExists input_dir = false →
      ∃ e, (Api.upload_data fs sm dir input_dir s3_dir).1 = .error e) ∧
    (fs.pathExists input_dir = true → remoteRejected = true →
      ∃ e, (Api.upload_data fs sm dir input_dir s3_dir).1 = .error e) ∧
    (fs.pathExists input_dir = true → remoteRejected = false →
      (Api.upload_data fs sm dir input_dir s3_dir).1 =
        .ok (remotePath input_dir s3_dir)) := by
  refine ⟨?_, ?_, ?_⟩
  · intro h1
    exact ⟨.clientError ("local path absent: " ++ input_dir),
      by simp [Api.upload_data, Api._read_config, hcfg, hsm,
        specClientUpload, h1]⟩
  · intro h1 h2
    exact ⟨.clientError "remote write rejected",
      by simp [Api.upload_data, Api._read_config, hcfg, hsm,
        specClientUpload, h1, h2]⟩
  · intro h1 h2
    simp [Api.upload_data, Api._read_config, hcfg, hsm, specClientUpload,
      h1, h2]

/-- C7 witness: concrete upload with an existing local path and an accepting
platform returns the remote path. -/
theorem C7_upload_data_contract_witness :
    (Api.upload_data fsAll smSpecUpload "/proj" "data" "s3://in").1 =
      .ok "s3://in" :=
  (C7_upload_data_contract fsAll smSpecUpload false (fun _ s3_dir => s3_dir)
      "/proj" "data" "s3://in" rfl rfl).2.2 rfl rfl

/-- C8: `batch_transform` returns no value beyond success or failure: with
the config present, whatever value the client call returns is discarded and
the operation returns Python `None` (unit); when the client raises, the error
is the only observable outcome. -/
theorem C8_batch_transform_no_return
    (fs : FileSystem) (sm : SageMakerBehavior)
    (dir s3_model_location s3_input_location s3_output_location : String)
    (num_instances : Int) (ec2_type docker_tag : String)
    (aws_role external_id : Option String) (tags : Option (List Tag))
    (hcfg : fs.isFile (configFilePath dir) = true) :
    (∀ v, sm.batchTransformResp
        { image_name :=
            (fs.configAt (configFilePath dir)).image_name ++ ":" ++ docker_tag
          s3_model_location := s3_model_location
          s3_input_location := s3_input_location
          s3_output_location := s3_output_location
          transform_instance_count := num_instances
          transform_instance_type := ec2_type
          tags := tags } = .ok v →
      (Api.batch_transform fs sm dir s3_model_location s3_input_location
        s3_output_location num_instances ec2_type docker_tag aws_role
        external_id tags).1 = .ok ()) ∧
    (∀ e, sm.batchTransformResp
        { image_name :=
            (fs.configAt (configFilePath dir)).image_name ++ ":" ++ docker_tag
          s3_model_location := s3_model_location
          s3_input_location := s3_input_location
          s3_output_location := s3_output_location
          transform_instance_count := num_instances
          transform_instance_type := ec2_type
          tags := tags } = .error e →
      (Api.batch_transform fs sm dir s3_model_location s3_input_location
        s3_output_location num_instances ec2_type docker_tag aws_role
        external_id tags).1 = .error e) := by
  constructor
  · intro v hv
    simp [Api.batch_transform, Api._read_config, hcfg, hv]
  · intro e he
    simp [Api.batch_transform, Api._read_config, hcfg, he]

/-- C8 witness: concrete batch transform; the client's returned value
"job-started" is discarded and the operation returns unit. -/
theorem C8_batch_transform_no_return_witness :
    (Api.batch_transform fsAll smOk "/proj" "s3://model" "s3://in" "s3://out"
        2 "ml.m4.xlarge" "latest" none none none).1 = .ok () :=
  (C8_batch_transform_no_return fsAll smOk "/proj" "s3://model" "s3://in"
      "s3://out" 2 "ml.m4.xlarge" "latest" none none none rfl).1
    "job-started" rfl

/-- C9: whenever train, deploy or batch_transform reaches the client, the
image name in the request is the config's `image_name`, a colon, and the
docker tag. -/
theorem C9_image_name_concatenation
    (fs : FileSystem) (sm : SageMakerBehavior)
    (dir input_s3_dir output_s3_dir : String)
    (hyperparams_file : Option String) (ec2_type : String)
    (volume_size time_out : Int) (docker_tag : String)
    (aws_role external_id base_job_name job_name : Option String)
    (tags : Option (List Tag)) (hpd : Option Json)
    (s3_model_location s3_input_location s3_output_location : String)
    (num_instances : Int)
    (hcfg : fs.isFile (configFilePath dir) = true)
    (hhp : (Api.hyperparamsDict fs hyperparams_file).1 = .ok hpd) :
    (trainCallsOf (Api.train fs sm dir input_s3_dir output_s3_dir
        hyperparams_file ec2_type volume_size time_out docker_tag aws_role
        external_id base_job_name job_name tags).2).map
        TrainRequest.image_name =
      [(fs.configAt (configFilePath dir)).image_name ++ ":" ++ docker_tag] ∧
    (deployCallsOf (Api.deploy fs sm dir s3_model_location num_instances
        ec2_type docker_tag aws_role external_id tags).2).map
        DeployRequest.image_name =
      [(fs.configAt (configFilePath dir)).image_name ++ ":" ++ docker_tag] ∧
    (batchTransformCallsOf (Api.batch_transform fs sm dir s3_model_location
        s3_input_location s3_output_location num_instances ec2_type
        docker_tag aws_role external_id tags).2).map
        BatchTransformRequest.image_name =
      [(fs.configAt (configFilePath dir)).image_name ++ ":" ++ docker_tag] := by
  refine ⟨?_, ?_, ?_⟩
  · have h2 := trainCallsOf_hyperparamsDict fs hyperparams_file
    rcases hd : Api.hyperparamsDict fs hyperparams_file with ⟨r, t2⟩
    rw [hd] at hhp h2
    simp only at hhp h2
    subst hhp
    simp only [Api.train, Api._read_config, hcfg, if_true, hd]
    rw [List.append_assoc, trainCallsOf_append, trainCallsOf_append, h2]
    simp [trainCallsOf]
  · simp [Api.deploy, Api._read_config, hcfg, deployCallsOf]
  · simp only [Api.batch_transform, Api._read_config, hcfg, if_true]
    cases hb : sm.batchTransformResp _ <;> simp [batchTransformCallsOf]

/-- C9 witness: concrete instantiation; every client request carries image
name "my-img:latest". -/
theorem C9_image_name_concatenation_witness :
    (trainCallsOf (Api.train fsAll smOk "/proj" "s3://in" "s3://out" none
        "ml.m4.xlarge" 30 86400 "latest" none none none none none).2).map
        TrainRequest.image_name = ["my-img:latest"] ∧
    (deployCallsOf (Api.deploy fsAll smOk "/proj" "s3://model" 2
        "ml.m4.xlarge" "latest" none none none).2).map
        DeployRequest.image_name = ["my-img:latest"] ∧
    (batchTransformCallsOf (Api.batch_transform fsAll smOk "/proj"
        "s3://model" "s3://in" "s3://out" 2 "ml.m4.xlarge" "latest" none none
        none).2).map BatchTransformRequest.image_name = ["my-img:latest"] :=
  C9_image_name_concatenation fsAll smOk "/proj" "s3://in" "s3://out" none
    "ml.m4.xlarge" 30 86400 "latest" none none none none none none
    "s3://model" "s3://in" "s3://out" 2 rfl rfl

/-- C10: when `hyperparams_file` is falsy (`None` or the empty string), train
performs no hyperparams file-existence check and no hyperparams read (the
trace holds only the config-file access, the client construction and the
train call), the client receives `hyperparameters = None`, and the result is
exactly the client's response — no error is raised on account of
hyperparameters. -/
theorem C10_falsy_hyperparams_skipped
    (fs : FileSystem) (sm : SageMakerBehavior)
    (dir input_s3_dir output_s3_dir : String)
    (hyperparams_file : Option String) (ec2_type : String)
    (volume_size time_out : Int) (docker_tag : String)
    (aws_role external_id base_job_name job_name : Option String)
    (tags : Option (List Tag))
    (hcfg : fs.isFile (configFilePath dir) = true)
    (hfalsy : hyperparams_file = none ∨ hyperparams_file = some "") :
    Api.train fs sm dir input_s3_dir output_s3_dir hyperparams_file ec2_type
        volume_size time_out docker_tag aws_role external_id base_job_name
        job_name tags =
      (sm.trainResp
        { image_name :=
            (fs.configAt (configFilePath dir)).image_name ++ ":" ++ docker_tag
          input_s3_data_location := input_s3_dir
          train_instance_count := 1
          train_instance_type := ec2_type
          train_volume_size := volume_size
          train_max_run := time_out
          output_path := output_s3_dir
          hyperparameters := none
          base_job_name := base_job_name
          job_name := job_name
          tags := tags },
       [.isFileCheck (configFilePath dir), .fileRead (configFilePath dir),
        .createClient (fs.configAt (configFilePath dir)).aws_profile
          (fs.configAt (configFilePath dir)).aws_region aws_role external_id,
        .trainCall
          { image_name :=
              (fs.configAt (configFilePath dir)).image_name ++ ":" ++
                docker_tag
            input_s3_data_location := input_s3_dir
            train_instance_count := 1
            train_instance_type := ec2_type
            train_volume_size := volume_size
            train_max_run := time_out
            output_path := output_s3_dir
            hyperparameters := none
            base_job_name := base_job_name
            job_name := job_name
            tags := tags }]) := by
  rcases hfalsy with rfl | rfl <;>
    simp [Api.train, Api._read_config, hcfg, Api.hyperparamsDict]

/-- C10 witness: on a file system where no hyperparams file exists at all,
train with `hyperparams_file = None` still succeeds with
`hyperparameters = None`. -/
theorem C10_falsy_hyperparams_skipped_witness :
    Api.train fsCfgOnly smOk "/proj" "s3://in" "s3://out" none "ml.m4.xlarge"
        30 86400 "latest" none none none none none =
      (.ok "s3://bucket/output/model.tar.gz",
       [.isFileCheck "/proj/sagify/config.json",
        .fileRead "/proj/sagify/config.json",
        .createClient "dev" "us-east-1" none none,
        .trainCall
          { image_name := "my-img:latest"
            input_s3_data_location := "s3://in"
            train_instance_count := 1
            train_instance_type := "ml.m4.xlarge"
            train_volume_size := 30
            train_max_run := 86400
            output_path := "s3://out"
            hyperparameters := none
            base_job_name := none
            job_name := none
            tags := none }]) :=
  C10_falsy_hyperparams_skipped fsCfgOnly smOk "/proj" "s3://in" "s3://out"
    none "ml.m4.xlarge" 30 86400 "latest" none none none none none
    (by decide) (Or.inl rfl)
